import Mathlib

/-!
Shallow embedding of the material-parameter model of the Semiconductors
repository (files struct.py and equat.py).

Numbers are modelled as exact rationals.  Python dictionaries become
structures with optional fields; the two module-level databases PURESEM and
BINALLOY become total functions from names to optional records.  A Python
query that raises is modelled in the Except monad:
  * KeyError on PURESEM[name]   becomes  MatErr.UnknownMaterial name
  * KeyError on BINALLOY[name]  becomes  MatErr.UnknownAlloy name
  * TypeError from arithmetic on a None produced by a double .get miss
    becomes MatErr.MissingParameter.
Python evaluates the default argument of dict.get eagerly, so
param.get(k, PURESEM[name].get(k)) looks the name up in the database even
when the overwrite dictionary supplies k; the embedding mirrors this by
performing the database lookup before consulting the overwrite value.
-/

namespace Semiconductors

/-- Varshni equation for the temperature-dependent band gap, from
equat.varshni: eg - a * temp^2 / (temp + b). -/
def varshni (temp eg a b : ℚ) : ℚ :=
  eg - a * temp ^ 2 / (temp + b)

/-- One record of the PURESEM database (struct.py).  Every field is optional,
mirroring a Python dictionary whose .get returns None on a missing key. -/
structure PureRec where
  lat : Option ℚ := none
  lat_temp : Option ℚ := none
  VBen : Option ℚ := none
  VBSO : Option ℚ := none
  BGGen : Option ℚ := none
  BGGa : Option ℚ := none
  BGGb : Option ℚ := none
  BGLen : Option ℚ := none
  BGLa : Option ℚ := none
  BGLb : Option ℚ := none
  BGXen : Option ℚ := none
  BGXa : Option ℚ := none
  BGXb : Option ℚ := none
  CBGdeg : Option ℚ := none
  CBLdeg : Option ℚ := none
  CBXdeg : Option ℚ := none
  CBGmass : Option (ℚ × ℚ × ℚ) := none
  CBLmass : Option (ℚ × ℚ × ℚ) := none
  CBXmass : Option (ℚ × ℚ × ℚ) := none
  Lutting : Option (ℚ × ℚ × ℚ) := none
  deriving DecidableEq

/-- One record of the BINALLOY database (struct.py): the two component
names and the optional bowing coefficients. -/
structure AlloyRec where
  sem : String × String
  VBbow : Option ℚ := none
  BGGbow : Option ℚ := none
  BGLbow : Option ℚ := none
  BGXbow : Option ℚ := none
  deriving DecidableEq

/-- An overwrite dictionary, as accepted by mater_pure and
mater_alloy_double.  Every recognised key is an optional field; a field that
is none falls through to the database default. -/
structure Overwrite where
  VBen : Option ℚ := none
  VBSO : Option ℚ := none
  BGGen : Option ℚ := none
  BGGa : Option ℚ := none
  BGGb : Option ℚ := none
  BGLen : Option ℚ := none
  BGLa : Option ℚ := none
  BGLb : Option ℚ := none
  BGXen : Option ℚ := none
  BGXa : Option ℚ := none
  BGXb : Option ℚ := none
  CBGmass : Option (ℚ × ℚ × ℚ) := none
  EnShift : Option ℚ := none
  VBbow : Option ℚ := none
  deriving DecidableEq

/-- Failure of a resolver query, in the vocabulary of the specification:
an unknown pure-material name (Python KeyError on PURESEM), an unknown
alloy name (Python KeyError on BINALLOY), or a required parameter key
missing from both the overwrite set and the database record (Python
TypeError when the None from a double .get miss reaches arithmetic). -/
inductive MatErr where
  | UnknownMaterial (name : String)
  | UnknownAlloy (name : String)
  | MissingParameter
  deriving DecidableEq

/-- The pure-material database as a lookup function. -/
abbrev PureDB := String → Option PureRec

/-- The alloy database as a lookup function. -/
abbrev AlloyDB := String → Option AlloyRec

/-- self.param.get(k, PURESEM[self.name].get(k)): the database record is
looked up first (Python evaluates the default argument eagerly, raising
KeyError on an unknown name even when the overwrite supplies k); then the
overwrite value wins when present, else the record value, else the query
fails with MissingParameter when the resulting None reaches arithmetic. -/
def resolve (db : PureDB) (name : String) (ov : Option ℚ)
    (sel : PureRec → Option ℚ) : Except MatErr ℚ :=
  match db name with
  | none => Except.error (MatErr.UnknownMaterial name)
  | some r =>
    match ov with
    | some v => Except.ok v
    | none =>
      match sel r with
      | some v => Except.ok v
      | none => Except.error MatErr.MissingParameter

/-- Like resolve, for three-component mass tuples. -/
def resolveMass (db : PureDB) (name : String) (ov : Option (ℚ × ℚ × ℚ))
    (sel : PureRec → Option (ℚ × ℚ × ℚ)) : Except MatErr (ℚ × ℚ × ℚ) :=
  match db name with
  | none => Except.error (MatErr.UnknownMaterial name)
  | some r =>
    match ov with
    | some v => Except.ok v
    | none =>
      match sel r with
      | some v => Except.ok v
      | none => Except.error MatErr.MissingParameter

/-- The GaAs record of PURESEM. -/
def GaAs : PureRec :=
  { lat := some 5.65325, lat_temp := some 3.88e-5
    VBen := some 1.46, VBSO := some 0.341
    BGGen := some 1.519, BGGa := some 0.5405e-3, BGGb := some 204.0
    BGLen := some 1.815, BGLa := some 0.605e-3, BGLb := some 204.0
    BGXen := some 1.981, BGXa := some 0.46e-3, BGXb := some 204.0
    CBGdeg := some 2, CBLdeg := some 8, CBXdeg := some 6
    CBGmass := some (0.067, 0.067, 0.067)
    CBLmass := some (1.9, 0.0754, 0.0754)
    CBXmass := some (1.3, 0.23, 0.23)
    Lutting := some (6.98, 2.06, 2.93) }

/-- The AlAs record of PURESEM. -/
def AlAs : PureRec :=
  { lat := some 5.6611, lat_temp := some 2.9e-5
    VBen := some 0.95, VBSO := some 0.28
    BGGen := some 3.099, BGGa := some 0.885e-3, BGGb := some 530.0
    BGLen := some 2.46, BGLa := some 0.605e-3, BGLb := some 204.0
    BGXen := some 2.24, BGXa := some 0.7e-3, BGXb := some 530.0
    CBGdeg := some 2, CBLdeg := some 8, CBXdeg := some 6
    CBGmass := some (0.15, 0.15, 0.15)
    CBLmass := some (1.32, 0.15, 0.15)
    CBXmass := some (0.97, 0.22, 0.22)
    Lutting := some (3.76, 0.82, 1.42) }

/-- The PURESEM database of struct.py. -/
def PURESEM : PureDB := fun n =>
  if n = "GaAs" then some GaAs
  else if n = "AlAs" then some AlAs
  else none

/-- The AlGaAs record of BINALLOY: components AlAs and GaAs, all bowing
coefficients zero. -/
def AlGaAsRec : AlloyRec :=
  { sem := ("AlAs", "GaAs")
    VBbow := some 0.0, BGGbow := some 0.0
    BGLbow := some 0.0, BGXbow := some 0.0 }

/-- The BINALLOY database of struct.py. -/
def BINALLOY : AlloyDB := fun n =>
  if n = "AlGaAs" then some AlGaAsRec else none

/-- mater_pure.VBH: heavy hole valence band position,
resolved VBen plus the EnShift overwrite (default 0.0). -/
def mater_pure.VBH (db : PureDB) (name : String) (ov : Overwrite) :
    Except MatErr ℚ :=
  match resolve db name ov.VBen PureRec.VBen with
  | Except.ok v => Except.ok (v + ov.EnShift.getD 0)
  | Except.error e => Except.error e

/-- mater_pure.VBL: light hole valence band position; the source formula is
identical to the heavy hole one. -/
def mater_pure.VBL (db : PureDB) (name : String) (ov : Overwrite) :
    Except MatErr ℚ :=
  match resolve db name ov.VBen PureRec.VBen with
  | Except.ok v => Except.ok (v + ov.EnShift.getD 0)
  | Except.error e => Except.error e

/-- mater_pure.VBSO: spin-orbit split valence band position,
resolved VBen minus resolved VBSO plus EnShift. -/
def mater_pure.VBSO (db : PureDB) (name : String) (ov : Overwrite) :
    Except MatErr ℚ :=
  match resolve db name ov.VBen PureRec.VBen,
        resolve db name ov.VBSO PureRec.VBSO with
  | Except.ok v, Except.ok so => Except.ok (v - so + ov.EnShift.getD 0)
  | Except.error e, _ => Except.error e
  | _, Except.error e => Except.error e

/-- mater_pure.BGG: Gamma band gap via the Varshni equation, each of the
three parameters resolved independently (overwrite wins over database,
key by key). -/
def mater_pure.BGG (db : PureDB) (name : String) (ov : Overwrite)
    (temp : ℚ) : Except MatErr ℚ :=
  match resolve db name ov.BGGen PureRec.BGGen,
        resolve db name ov.BGGa PureRec.BGGa,
        resolve db name ov.BGGb PureRec.BGGb with
  | Except.ok en, Except.ok a, Except.ok b => Except.ok (varshni temp en a b)
  | Except.error e, _, _ => Except.error e
  | _, Except.error e, _ => Except.error e
  | _, _, Except.error e => Except.error e

/-- mater_pure.BGL: L band gap via the Varshni equation. -/
def mater_pure.BGL (db : PureDB) (name : String) (ov : Overwrite)
    (temp : ℚ) : Except MatErr ℚ :=
  match resolve db name ov.BGLen PureRec.BGLen,
        resolve db name ov.BGLa PureRec.BGLa,
        resolve db name ov.BGLb PureRec.BGLb with
  | Except.ok en, Except.ok a, Except.ok b => Except.ok (varshni temp en a b)
  | Except.error e, _, _ => Except.error e
  | _, Except.error e, _ => Except.error e
  | _, _, Except.error e => Except.error e

/-- mater_pure.BGX: X band gap via the Varshni equation. -/
def mater_pure.BGX (db : PureDB) (name : String) (ov : Overwrite)
    (temp : ℚ) : Except MatErr ℚ :=
  match resolve db name ov.BGXen PureRec.BGXen,
        resolve db name ov.BGXa PureRec.BGXa,
        resolve db name ov.BGXb PureRec.BGXb with
  | Except.ok en, Except.ok a, Except.ok b => Except.ok (varshni temp en a b)
  | Except.error e, _, _ => Except.error e
  | _, Except.error e, _ => Except.error e
  | _, _, Except.error e => Except.error e

/-- mater_pure.CBG: Gamma conduction band position.  The source body is
self.VBH() + self.BGG(): the temp argument received by CBG is NOT forwarded
to BGG, which therefore runs at its own default temperature of 300. -/
def mater_pure.CBG (db : PureDB) (name : String) (ov : Overwrite)
    (_temp : ℚ) : Except MatErr ℚ :=
  match mater_pure.VBH db name ov, mater_pure.BGG db name ov 300 with
  | Except.ok v, Except.ok g => Except.ok (v + g)
  | Except.error e, _ => Except.error e
  | _, Except.error e => Except.error e

/-- mater_pure.CBL: L conduction band position; same unforwarded temp. -/
def mater_pure.CBL (db : PureDB) (name : String) (ov : Overwrite)
    (_temp : ℚ) : Except MatErr ℚ :=
  match mater_pure.VBH db name ov, mater_pure.BGL db name ov 300 with
  | Except.ok v, Except.ok g => Except.ok (v + g)
  | Except.error e, _ => Except.error e
  | _, Except.error e => Except.error e

/-- mater_pure.CBX: X conduction band position; same unforwarded temp. -/
def mater_pure.CBX (db : PureDB) (name : String) (ov : Overwrite)
    (_temp : ℚ) : Except MatErr ℚ :=
  match mater_pure.VBH db name ov, mater_pure.BGX db name ov 300 with
  | Except.ok v, Except.ok g => Except.ok (v + g)
  | Except.error e, _ => Except.error e
  | _, Except.error e => Except.error e

/-- mater_pure.mg: first principal-axis component of the Gamma conduction
band mass tuple. -/
def mater_pure.mg (db : PureDB) (name : String) (ov : Overwrite) :
    Except MatErr ℚ :=
  match resolveMass db name ov.CBGmass PureRec.CBGmass with
  | Except.ok m => Except.ok m.1
  | Except.error e => Except.error e

/-- BINALLOY[self.name] lookup performed by mater_alloy_double. -/
def lookupAlloy (adb : AlloyDB) (name : String) : Except MatErr AlloyRec :=
  match adb name with
  | some r => Except.ok r
  | none => Except.error (MatErr.UnknownAlloy name)

/-- mater_alloy_double.VBH: the interpolated mean
x * mat1.VBH + (1 - x) * mat2.VBH - x * (1 - x) * VBbow is always computed
(both component queries run), then the overwrite value of VBen replaces the
mean when present, and EnShift is added to whichever of the two was
chosen. -/
def mater_alloy_double.VBH (pdb : PureDB) (adb : AlloyDB) (name : String)
    (ov o1 o2 : Overwrite) (x : ℚ) : Except MatErr ℚ :=
  match lookupAlloy adb name with
  | Except.error e => Except.error e
  | Except.ok ar =>
    match mater_pure.VBH pdb ar.sem.1 o1, mater_pure.VBH pdb ar.sem.2 o2 with
    | Except.ok v1, Except.ok v2 =>
      Except.ok
        ((ov.VBen.getD
            (x * v1 + (1 - x) * v2 -
              x * (1 - x) * (ov.VBbow.getD (ar.VBbow.getD 0)))) +
          ov.EnShift.getD 0)
    | Except.error e, _ => Except.error e
    | _, Except.error e => Except.error e

/-- mater_alloy_double.CBG: the source computes mean_CBG from the two
component CBG values using the VBbow bowing key (not BGGbow), and then
falls off the end of the function body, so the Python function returns
None.  The Option in the result type carries that None. -/
def mater_alloy_double.CBG (pdb : PureDB) (adb : AlloyDB) (name : String)
    (ov o1 o2 : Overwrite) (x : ℚ) : Except MatErr (Option ℚ) :=
  match lookupAlloy adb name with
  | Except.error e => Except.error e
  | Except.ok ar =>
    match mater_pure.CBG pdb ar.sem.1 o1 300, mater_pure.CBG pdb ar.sem.2 o2 300 with
    | Except.ok c1, Except.ok c2 =>
      let _mean := x * c1 + (1 - x) * c2 -
        x * (1 - x) * (ov.VBbow.getD (ar.VBbow.getD 0))
      Except.ok none
    | Except.error e, _ => Except.error e
    | _, Except.error e => Except.error e

/-- An overwrite dictionary that supplies every recognised parameter key,
used to exhibit that an unknown material name fails even when the caller
supplies every parameter a query could need. -/
def fullOverwrite : Overwrite :=
  { VBen := some 1, VBSO := some 1
    BGGen := some 1, BGGa := some 1, BGGb := some 1
    BGLen := some 1, BGLa := some 1, BGLb := some 1
    BGXen := some 1, BGXa := some 1, BGXb := some 1
    CBGmass := some (1, 1, 1), EnShift := some 1, VBbow := some 1 }

/-- A hypothetical alloy database whose single record references the name
Si, which is absent from PURESEM; it exhibits how a component failure
propagates through the alloy resolver. -/
def brokenAlloyDB : AlloyDB := fun n =>
  if n = "SiGaAs" then some { sem := ("Si", "GaAs") } else none
/-! Helper lemmas shared by the claim theorems. -/

/-- A name resolving in PURESEM is either the GaAs or the AlAs record. -/
lemma PURESEM_cases (name : String) (r : PureRec) (h : PURESEM name = some r) :
    (name = "GaAs" ∧ r = GaAs) ∨ (name = "AlAs" ∧ r = AlAs) := by
  unfold PURESEM at h
  by_cases h1 : name = "GaAs"
  · subst h1
    simp at h
    exact Or.inl ⟨rfl, h.symm⟩
  · by_cases h2 : name = "AlAs"
    · subst h2
      simp at h
      exact Or.inr ⟨rfl, h.symm⟩
    · simp [h1, h2] at h

/-- Evaluation of the PURESEM lookup at GaAs. -/
lemma PURESEM_GaAs : PURESEM "GaAs" = some GaAs := by simp [PURESEM]

/-- Evaluation of the PURESEM lookup at AlAs. -/
lemma PURESEM_AlAs : PURESEM "AlAs" = some AlAs := by simp [PURESEM]

/-- The heavy hole valence band query on a name whose record carries VBen
always succeeds, with the overwrite-or-default value plus the shift. -/
lemma VBH_ok (db : PureDB) (name : String) (r : PureRec) (w : ℚ) (ov : Overwrite)
    (h : db name = some r) (hw : r.VBen = some w) :
    mater_pure.VBH db name ov = Except.ok (ov.VBen.getD w + ov.EnShift.getD 0) := by
  unfold mater_pure.VBH resolve
  rw [h]
  cases hov : ov.VBen <;> simp [hov, hw]

/-- A resolve call fails with UnknownMaterial exactly when the name is
absent from the database, whatever the overwrite holds. -/
lemma resolve_unknown_iff (db : PureDB) (name : String) (ov : Option ℚ)
    (sel : PureRec → Option ℚ) :
    resolve db name ov sel = Except.error (MatErr.UnknownMaterial name) ↔
      db name = none := by
  unfold resolve
  cases hdb : db name with
  | none => simp
  | some r =>
    cases ov with
    | some v => simp
    | none => cases hs : sel r <;> simp [hs]

/-- A resolve call fails with MissingParameter exactly when the name is in
the database but the key is supplied by neither the overwrite nor the
record. -/
lemma resolve_missing_iff (db : PureDB) (name : String) (ov : Option ℚ)
    (sel : PureRec → Option ℚ) :
    resolve db name ov sel = Except.error MatErr.MissingParameter ↔
      ∃ r, db name = some r ∧ ov = none ∧ sel r = none := by
  unfold resolve
  cases hdb : db name with
  | none => simp
  | some r =>
    cases ov with
    | some v => simp
    | none => cases hs : sel r <;> simp [hs]

/-- On a known name, a resolve call either yields a value or fails with
MissingParameter. -/
lemma resolve_ok_or_missing (db : PureDB) (name : String) (r : PureRec)
    (ov : Option ℚ) (sel : PureRec → Option ℚ) (h : db name = some r) :
    (∃ v, resolve db name ov sel = Except.ok v) ∨
      resolve db name ov sel = Except.error MatErr.MissingParameter := by
  unfold resolve
  cases hov : ov with
  | some v => simp [h]
  | none => cases hs : sel r <;> simp [h, hs]

/-- A resolve call yields a value, UnknownMaterial, or MissingParameter;
no other outcome exists. -/
lemma resolve_cases (db : PureDB) (name : String) (ov : Option ℚ)
    (sel : PureRec → Option ℚ) :
    (∃ v, resolve db name ov sel = Except.ok v) ∨
      resolve db name ov sel = Except.error (MatErr.UnknownMaterial name) ∨
      resolve db name ov sel = Except.error MatErr.MissingParameter := by
  unfold resolve
  cases hdb : db name with
  | none => simp [hdb]
  | some r =>
    cases hov : ov with
    | some v => simp [hdb]
    | none => cases hs : sel r <;> simp [hdb, hs]

/-- The heavy hole query fails with a given error exactly when its single
resolve call does. -/
lemma VBH_error_iff (db : PureDB) (name : String) (ov : Overwrite) (e : MatErr) :
    mater_pure.VBH db name ov = Except.error e ↔
      resolve db name ov.VBen PureRec.VBen = Except.error e := by
  unfold mater_pure.VBH
  cases hres : resolve db name ov.VBen PureRec.VBen <;> simp [hres]

/-- The Gamma gap query fails with a given error exactly when one of its
three resolve calls is the first to fail with it. -/
lemma BGG_error_iff (db : PureDB) (name : String) (ov : Overwrite) (temp : ℚ)
    (e : MatErr) :
    mater_pure.BGG db name ov temp = Except.error e ↔
      (resolve db name ov.BGGen PureRec.BGGen = Except.error e ∨
        ((∃ v, resolve db name ov.BGGen PureRec.BGGen = Except.ok v) ∧
          resolve db name ov.BGGa PureRec.BGGa = Except.error e) ∨
        ((∃ v, resolve db name ov.BGGen PureRec.BGGen = Except.ok v) ∧
          (∃ v, resolve db name ov.BGGa PureRec.BGGa = Except.ok v) ∧
          resolve db name ov.BGGb PureRec.BGGb = Except.error e)) := by
  unfold mater_pure.BGG
  cases h1 : resolve db name ov.BGGen PureRec.BGGen <;>
    cases h2 : resolve db name ov.BGGa PureRec.BGGa <;>
      cases h3 : resolve db name ov.BGGb PureRec.BGGb <;>
        simp [h1, h2, h3]

/-! The claim theorems. -/

/-- Claim C1: the alloy conduction band query is claimed to return the
interpolated Gamma conduction band built from the component conduction
bands and the valley-specific bowing coefficient, short-circuited by an
alloy-level override.  The source instead computes the mean with the
valence-band bowing key and then falls off the end of the function body, so
the query returns the Python value None: evaluated at AlGaAs with x = 0.3
and no overrides it yields no energy at all. -/
theorem C1_alloy_CBG_returns_no_value :
    mater_alloy_double.CBG PURESEM BINALLOY "AlGaAs" {} {} {} 0.3 =
      Except.ok none := by
  simp [mater_alloy_double.CBG, lookupAlloy, BINALLOY, AlGaAsRec, mater_pure.CBG,
    mater_pure.VBH, mater_pure.BGG, resolve, PURESEM, GaAs, AlAs]

/-- Claim C2: the pure conduction band query is claimed to evaluate the band
gap at the temperature argument it receives.  The source body of
mater_pure.CBG calls BGG with no temperature argument, so the gap is always
taken at 300 K: at GaAs and query temperature 0 the result carries the
300 K Varshni gap and differs from the claimed value built from the gap at 0. -/
theorem C2_CBG_ignores_temperature :
    mater_pure.CBG PURESEM "GaAs" {} 0 =
      Except.ok (1.46 + varshni 300 1.519 0.5405e-3 204) ∧
    mater_pure.CBG PURESEM "GaAs" {} 0 ≠
      Except.ok (1.46 + varshni 0 1.519 0.5405e-3 204) := by
  constructor
  · norm_num [mater_pure.CBG, mater_pure.VBH, mater_pure.BGG, resolve, PURESEM,
      GaAs, varshni]
  · norm_num [mater_pure.CBG, mater_pure.VBH, mater_pure.BGG, resolve, PURESEM,
      GaAs, varshni]

/-- Claim C3, counterexample: with the alloy-level overwrite supplying both
VBen = 1 and EnShift = 0.5, the alloy heavy hole query at AlGaAs and
x = 0.3 returns 1.5, not the supplied value 1 unchanged: the energy shift
is added on top of the short-circuited value. -/
theorem C3_counterexample :
    mater_alloy_double.VBH PURESEM BINALLOY "AlGaAs"
      { VBen := some 1, EnShift := some 0.5 } {} {} 0.3 = Except.ok 1.5 ∧
    (1.5 : ℚ) ≠ 1 := by
  constructor
  · simp [mater_alloy_double.VBH, lookupAlloy, BINALLOY, AlGaAsRec, mater_pure.VBH,
      resolve, PURESEM, GaAs, AlAs]
    norm_num
  · norm_num

/-- Claim C3 as amended: when the alloy-level overwrite supplies VBen, the
alloy heavy hole query returns that value plus the overwrite EnShift
(default 0.0); the interpolated mean is discarded, and this holds for every
composition x and every content of the component overwrite sets. -/
theorem C3_amended_override_plus_shift (ov o1 o2 : Overwrite) (x v : ℚ)
    (h : ov.VBen = some v) :
    mater_alloy_double.VBH PURESEM BINALLOY "AlGaAs" ov o1 o2 x =
      Except.ok (v + ov.EnShift.getD 0) := by
  have h1 := VBH_ok PURESEM "AlAs" AlAs 0.95 o1 (by simp [PURESEM]) rfl
  have h2 := VBH_ok PURESEM "GaAs" GaAs 1.46 o2 (by simp [PURESEM]) rfl
  simp [mater_alloy_double.VBH, lookupAlloy, BINALLOY, AlGaAsRec, h1, h2, h]

/-- Witness for the amended claim C3 at a concrete overwrite set. -/
theorem C3_amended_witness :
    mater_alloy_double.VBH PURESEM BINALLOY "AlGaAs"
      { VBen := some 1, EnShift := some 0.5 } {} {} 0.3 =
      Except.ok (1 + Option.getD (some 0.5) 0) :=
  C3_amended_override_plus_shift { VBen := some 1, EnShift := some 0.5 } {} {} 0.3 1 rfl

/-- Claim C4: over an arbitrary pure-material database, a query (heavy hole
valence band and Gamma gap shown as the representative quantities) fails
with UnknownMaterial exactly when the name is absent from the database,
fails with MissingParameter exactly when the name is present but some
required key of the quantity is supplied by neither the overwrite set nor
the record, and always either yields a value or fails with one of those two
errors, so a failure surfaces at the failing query itself and there is no
other outcome. -/
theorem C4_failure_characterisation (db : PureDB) (name : String)
    (ov : Overwrite) (temp : ℚ) :
    (mater_pure.VBH db name ov = Except.error (MatErr.UnknownMaterial name) ↔
      db name = none) ∧
    (mater_pure.VBH db name ov = Except.error MatErr.MissingParameter ↔
      ∃ r, db name = some r ∧ ov.VBen = none ∧ r.VBen = none) ∧
    (mater_pure.BGG db name ov temp = Except.error (MatErr.UnknownMaterial name) ↔
      db name = none) ∧
    (mater_pure.BGG db name ov temp = Except.error MatErr.MissingParameter ↔
      ∃ r, db name = some r ∧
        ((ov.BGGen = none ∧ r.BGGen = none) ∨ (ov.BGGa = none ∧ r.BGGa = none) ∨
          (ov.BGGb = none ∧ r.BGGb = none))) ∧
    ((∃ v, mater_pure.VBH db name ov = Except.ok v) ∨
      mater_pure.VBH db name ov = Except.error (MatErr.UnknownMaterial name) ∨
      mater_pure.VBH db name ov = Except.error MatErr.MissingParameter) ∧
    ((∃ v, mater_pure.BGG db name ov temp = Except.ok v) ∨
      mater_pure.BGG db name ov temp = Except.error (MatErr.UnknownMaterial name) ∨
      mater_pure.BGG db name ov temp = Except.error MatErr.MissingParameter) := by
  refine ⟨?_, ?_, ?_, ?_, ?_, ?_⟩
  · rw [VBH_error_iff, resolve_unknown_iff]
  · rw [VBH_error_iff, resolve_missing_iff]
  · rw [BGG_error_iff]
    constructor
    · rintro (h | ⟨_, h⟩ | ⟨_, _, h⟩)
      · exact (resolve_unknown_iff db name ov.BGGen PureRec.BGGen).mp h
      · exact (resolve_unknown_iff db name ov.BGGa PureRec.BGGa).mp h
      · exact (resolve_unknown_iff db name ov.BGGb PureRec.BGGb).mp h
    · intro h
      exact Or.inl ((resolve_unknown_iff db name ov.BGGen PureRec.BGGen).mpr h)
  · rw [BGG_error_iff]
    constructor
    · rintro (h | ⟨_, h⟩ | ⟨_, _, h⟩)
      · obtain ⟨r, hr, ho, hs⟩ :=
          (resolve_missing_iff db name ov.BGGen PureRec.BGGen).mp h
        exact ⟨r, hr, Or.inl ⟨ho, hs⟩⟩
      · obtain ⟨r, hr, ho, hs⟩ :=
          (resolve_missing_iff db name ov.BGGa PureRec.BGGa).mp h
        exact ⟨r, hr, Or.inr (Or.inl ⟨ho, hs⟩)⟩
      · obtain ⟨r, hr, ho, hs⟩ :=
          (resolve_missing_iff db name ov.BGGb PureRec.BGGb).mp h
        exact ⟨r, hr, Or.inr (Or.inr ⟨ho, hs⟩)⟩
    · rintro ⟨r, hr, (⟨ho, hs⟩ | ⟨ho, hs⟩ | ⟨ho, hs⟩)⟩
      · exact Or.inl
          ((resolve_missing_iff db name ov.BGGen PureRec.BGGen).mpr ⟨r, hr, ho, hs⟩)
      · rcases resolve_ok_or_missing db name r ov.BGGen PureRec.BGGen hr with hok | hmiss
        · exact Or.inr (Or.inl ⟨hok,
            (resolve_missing_iff db name ov.BGGa PureRec.BGGa).mpr ⟨r, hr, ho, hs⟩⟩)
        · exact Or.inl hmiss
      · rcases resolve_ok_or_missing db name r ov.BGGen PureRec.BGGen hr with hok1 | hmiss1
        · rcases resolve_ok_or_missing db name r ov.BGGa PureRec.BGGa hr with hok2 | hmiss2
          · exact Or.inr (Or.inr ⟨hok1, hok2,
              (resolve_missing_iff db name ov.BGGb PureRec.BGGb).mpr ⟨r, hr, ho, hs⟩⟩)
          · exact Or.inr (Or.inl ⟨hok1, hmiss2⟩)
        · exact Or.inl hmiss1
  · rcases resolve_cases db name ov.VBen PureRec.VBen with ⟨v, hv⟩ | h | h
    · exact Or.inl ⟨v + ov.EnShift.getD 0, by unfold mater_pure.VBH; rw [hv]⟩
    · exact Or.inr (Or.inl ((VBH_error_iff db name ov (MatErr.UnknownMaterial name)).mpr h))
    · exact Or.inr (Or.inr ((VBH_error_iff db name ov MatErr.MissingParameter).mpr h))
  · rcases resolve_cases db name ov.BGGen PureRec.BGGen with ⟨v1, h1⟩ | h1 | h1
    · rcases resolve_cases db name ov.BGGa PureRec.BGGa with ⟨v2, h2⟩ | h2 | h2
      · rcases resolve_cases db name ov.BGGb PureRec.BGGb with ⟨v3, h3⟩ | h3 | h3
        · exact Or.inl ⟨varshni temp v1 v2 v3, by unfold mater_pure.BGG; rw [h1, h2, h3]⟩
        · exact Or.inr (Or.inl ((BGG_error_iff db name ov temp
            (MatErr.UnknownMaterial name)).mpr (Or.inr (Or.inr ⟨⟨v1, h1⟩, ⟨v2, h2⟩, h3⟩))))
        · exact Or.inr (Or.inr ((BGG_error_iff db name ov temp
            MatErr.MissingParameter).mpr (Or.inr (Or.inr ⟨⟨v1, h1⟩, ⟨v2, h2⟩, h3⟩))))
      · exact Or.inr (Or.inl ((BGG_error_iff db name ov temp
          (MatErr.UnknownMaterial name)).mpr (Or.inr (Or.inl ⟨⟨v1, h1⟩, h2⟩))))
      · exact Or.inr (Or.inr ((BGG_error_iff db name ov temp
          MatErr.MissingParameter).mpr (Or.inr (Or.inl ⟨⟨v1, h1⟩, h2⟩))))
    · exact Or.inr (Or.inl ((BGG_error_iff db name ov temp
        (MatErr.UnknownMaterial name)).mpr (Or.inl h1)))
    · exact Or.inr (Or.inr ((BGG_error_iff db name ov temp
        MatErr.MissingParameter).mpr (Or.inl h1)))

/-- Claim C5: overriding only the Varshni alpha of the Gamma gap while
leaving every other key at its default makes the gap query compute the
Varshni value with the overridden alpha and the database values of the
zero-temperature gap and beta: the overwrite-or-default precedence is
applied to each parameter key independently. -/
theorem C5_single_key_override (db : PureDB) (name : String) (r : PureRec)
    (h : db name = some r) (en b : ℚ) (hen : r.BGGen = some en)
    (hb : r.BGGb = some b) (a temp : ℚ) :
    mater_pure.BGG db name { BGGa := some a } temp =
      Except.ok (varshni temp en a b) := by
  unfold mater_pure.BGG resolve
  rw [h]
  simp [hen, hb]

/-- Witness for claim C5 at GaAs with an overridden alpha of 0.001. -/
theorem C5_witness :
    mater_pure.BGG PURESEM "GaAs" { BGGa := some 0.001 } 300 =
      Except.ok (varshni 300 1.519 0.001 204.0) :=
  C5_single_key_override PURESEM "GaAs" GaAs (by simp [PURESEM]) 1.519 204.0
    rfl rfl 0.001 300

/-- Claim C6: for an alloy whose valence-band bowing is zero and with no
overrides at any level, the alloy heavy hole query at x = 0 returns exactly
the value of the second component (component b) and at x = 1 exactly the
value of the first component (component a): the quadratic bowing term
vanishes at the endpoints of the composition range. -/
theorem C6_endpoints (adb : AlloyDB) (name : String) (ar : AlloyRec)
    (h : adb name = some ar) (_hbow : ar.VBbow.getD 0 = 0) (v1 v2 : ℚ)
    (h1 : mater_pure.VBH PURESEM ar.sem.1 {} = Except.ok v1)
    (h2 : mater_pure.VBH PURESEM ar.sem.2 {} = Except.ok v2) :
    mater_alloy_double.VBH PURESEM adb name {} {} {} 0 = Except.ok v2 ∧
    mater_alloy_double.VBH PURESEM adb name {} {} {} 1 = Except.ok v1 := by
  unfold mater_alloy_double.VBH lookupAlloy
  rw [h]
  constructor <;> simp [h1, h2]

/-- Witness for claim C6 at AlGaAs: x = 0 gives the GaAs valence band and
x = 1 the AlAs valence band. -/
theorem C6_witness :
    mater_alloy_double.VBH PURESEM BINALLOY "AlGaAs" {} {} {} 0 = Except.ok 1.46 ∧
    mater_alloy_double.VBH PURESEM BINALLOY "AlGaAs" {} {} {} 1 = Except.ok 0.95 :=
  C6_endpoints BINALLOY "AlGaAs" AlGaAsRec (by simp [BINALLOY])
    (by norm_num [AlGaAsRec]) 0.95 1.46
    (by simp [AlGaAsRec, mater_pure.VBH, resolve, PURESEM, AlAs])
    (by simp [AlGaAsRec, mater_pure.VBH, resolve, PURESEM, GaAs])

/-- Claim C7: for every material of the PURESEM database and every valley,
the band gap queried at temperature zero is exactly the zero-temperature
gap parameter of that valley: the Varshni correction term vanishes at
temperature zero. -/
theorem C7_zero_temperature (name : String) (r : PureRec)
    (h : PURESEM name = some r) (enG enL enX : ℚ) (hG : r.BGGen = some enG)
    (hL : r.BGLen = some enL) (hX : r.BGXen = some enX) :
    mater_pure.BGG PURESEM name {} 0 = Except.ok enG ∧
    mater_pure.BGL PURESEM name {} 0 = Except.ok enL ∧
    mater_pure.BGX PURESEM name {} 0 = Except.ok enX := by
  rcases PURESEM_cases name r h with ⟨hn, hr⟩ | ⟨hn, hr⟩ <;> subst hn <;> subst hr
  · simp [GaAs] at hG hL hX
    subst hG; subst hL; subst hX
    refine ⟨?_, ?_, ?_⟩ <;>
      norm_num [mater_pure.BGG, mater_pure.BGL, mater_pure.BGX, resolve,
        PURESEM_GaAs, GaAs, varshni]
  · simp [AlAs] at hG hL hX
    subst hG; subst hL; subst hX
    refine ⟨?_, ?_, ?_⟩ <;>
      norm_num [mater_pure.BGG, mater_pure.BGL, mater_pure.BGX, resolve,
        PURESEM_AlAs, AlAs, varshni]

/-- Witness for claim C7 at GaAs: the three valley gaps at temperature zero
are the three zero-temperature gap parameters of the record. -/
theorem C7_witness :
    mater_pure.BGG PURESEM "GaAs" {} 0 = Except.ok 1.519 ∧
    mater_pure.BGL PURESEM "GaAs" {} 0 = Except.ok 1.815 ∧
    mater_pure.BGX PURESEM "GaAs" {} 0 = Except.ok 1.981 :=
  C7_zero_temperature "GaAs" GaAs (by simp [PURESEM]) 1.519 1.815 1.981 rfl rfl rfl

/-- Claim C8: for every material of the PURESEM database queried with no
overrides, the spin-orbit valence band equals the heavy hole valence band
minus the spin-orbit splitting of the record, and concretely at GaAs the
query returns 1.46 - 0.341 = 1.119. -/
theorem C8_spin_orbit (name : String) (r : PureRec) (h : PURESEM name = some r)
    (so vbh : ℚ) (hso : r.VBSO = some so)
    (hv : mater_pure.VBH PURESEM name {} = Except.ok vbh) :
    mater_pure.VBSO PURESEM name {} = Except.ok (vbh - so) ∧
    mater_pure.VBSO PURESEM "GaAs" {} = Except.ok 1.119 := by
  have hGaAs : mater_pure.VBSO PURESEM "GaAs" {} = Except.ok 1.119 := by
    simp [mater_pure.VBSO, resolve, PURESEM, GaAs]
    norm_num
  refine ⟨?_, hGaAs⟩
  rcases PURESEM_cases name r h with ⟨hn, hr⟩ | ⟨hn, hr⟩ <;> subst hn <;> subst hr
  · simp [GaAs] at hso
    subst hso
    simp [mater_pure.VBH, resolve, PURESEM, GaAs] at hv
    subst hv
    simp [mater_pure.VBSO, resolve, PURESEM, GaAs]
  · simp [AlAs] at hso
    subst hso
    simp [mater_pure.VBH, resolve, PURESEM, AlAs] at hv
    subst hv
    simp [mater_pure.VBSO, resolve, PURESEM, AlAs]

/-- Witness for claim C8 at GaAs. -/
theorem C8_witness :
    mater_pure.VBSO PURESEM "GaAs" {} = Except.ok (1.46 - 0.341) ∧
    mater_pure.VBSO PURESEM "GaAs" {} = Except.ok 1.119 :=
  C8_spin_orbit "GaAs" GaAs (by simp [PURESEM]) 0.341 1.46 rfl
    (by simp [mater_pure.VBH, resolve, PURESEM, GaAs])

/-- Claim C9: the alloy heavy hole query evaluates both component resolvers
before consulting the VBen short-circuit, so even when the alloy-level
overwrite supplies VBen, a failure of the first component, or of the second
when the first succeeds, is the result of the whole query instead of the
supplied value. -/
theorem C9_component_failure_propagates (pdb : PureDB) (adb : AlloyDB)
    (name : String) (ar : AlloyRec) (h : adb name = some ar)
    (ov o1 o2 : Overwrite) (v : ℚ) (_hov : ov.VBen = some v) (x : ℚ) (e : MatErr)
    (he : mater_pure.VBH pdb ar.sem.1 o1 = Except.error e ∨
      ((∃ w, mater_pure.VBH pdb ar.sem.1 o1 = Except.ok w) ∧
        mater_pure.VBH pdb ar.sem.2 o2 = Except.error e)) :
    mater_alloy_double.VBH pdb adb name ov o1 o2 x = Except.error e := by
  unfold mater_alloy_double.VBH lookupAlloy
  rw [h]
  rcases he with he | ⟨⟨w, hw⟩, he⟩
  · simp [he]
  · simp [hw, he]

/-- Witness for claim C9: an alloy record referencing the absent name Si
fails with UnknownMaterial although the overwrite supplies VBen. -/
theorem C9_witness :
    mater_alloy_double.VBH PURESEM brokenAlloyDB "SiGaAs"
      { VBen := some 1 } {} {} 0.5 =
      Except.error (MatErr.UnknownMaterial "Si") :=
  C9_component_failure_propagates PURESEM brokenAlloyDB "SiGaAs"
    { sem := ("Si", "GaAs") } (by simp [brokenAlloyDB])
    { VBen := some 1 } {} {} 1 rfl 0.5 (MatErr.UnknownMaterial "Si")
    (Or.inl (by simp [mater_pure.VBH, resolve, PURESEM]))

/-- Claim C10: when a name is absent from the pure-material database, every
query of the resolver fails with UnknownMaterial, for every overwrite set,
because the database record is looked up unconditionally before the
overwrite precedence is applied. -/
theorem C10_unknown_name_always_fails (db : PureDB) (name : String)
    (h : db name = none) (ov : Overwrite) (temp : ℚ) :
    mater_pure.VBH db name ov = Except.error (MatErr.UnknownMaterial name) ∧
    mater_pure.VBL db name ov = Except.error (MatErr.UnknownMaterial name) ∧
    mater_pure.VBSO db name ov = Except.error (MatErr.UnknownMaterial name) ∧
    mater_pure.BGG db name ov temp = Except.error (MatErr.UnknownMaterial name) ∧
    mater_pure.BGL db name ov temp = Except.error (MatErr.UnknownMaterial name) ∧
    mater_pure.BGX db name ov temp = Except.error (MatErr.UnknownMaterial name) ∧
    mater_pure.CBG db name ov temp = Except.error (MatErr.UnknownMaterial name) ∧
    mater_pure.CBL db name ov temp = Except.error (MatErr.UnknownMaterial name) ∧
    mater_pure.CBX db name ov temp = Except.error (MatErr.UnknownMaterial name) ∧
    mater_pure.mg db name ov = Except.error (MatErr.UnknownMaterial name) := by
  refine ⟨?_, ?_, ?_, ?_, ?_, ?_, ?_, ?_, ?_, ?_⟩ <;>
    simp [mater_pure.VBH, mater_pure.VBL, mater_pure.VBSO, mater_pure.BGG,
      mater_pure.BGL, mater_pure.BGX, mater_pure.CBG, mater_pure.CBL,
      mater_pure.CBX, mater_pure.mg, resolve, resolveMass, h]

/-- Witness for claim C10: the name Si is absent from PURESEM, and every
query fails although the overwrite supplies every recognised key. -/
theorem C10_witness :
    mater_pure.VBH PURESEM "Si" fullOverwrite = Except.error (MatErr.UnknownMaterial "Si") ∧
    mater_pure.VBL PURESEM "Si" fullOverwrite = Except.error (MatErr.UnknownMaterial "Si") ∧
    mater_pure.VBSO PURESEM "Si" fullOverwrite = Except.error (MatErr.UnknownMaterial "Si") ∧
    mater_pure.BGG PURESEM "Si" fullOverwrite 300 = Except.error (MatErr.UnknownMaterial "Si") ∧
    mater_pure.BGL PURESEM "Si" fullOverwrite 300 = Except.error (MatErr.UnknownMaterial "Si") ∧
    mater_pure.BGX PURESEM "Si" fullOverwrite 300 = Except.error (MatErr.UnknownMaterial "Si") ∧
    mater_pure.CBG PURESEM "Si" fullOverwrite 300 = Except.error (MatErr.UnknownMaterial "Si") ∧
    mater_pure.CBL PURESEM "Si" fullOverwrite 300 = Except.error (MatErr.UnknownMaterial "Si") ∧
    mater_pure.CBX PURESEM "Si" fullOverwrite 300 = Except.error (MatErr.UnknownMaterial "Si") ∧
    mater_pure.mg PURESEM "Si" fullOverwrite = Except.error (MatErr.UnknownMaterial "Si") :=
  C10_unknown_name_always_fails PURESEM "Si" (by simp [PURESEM]) fullOverwrite 300

end Semiconductors
